import Mathlib

/-!
Shallow embedding of `src/lib.rs` of rust-wasm-metaball: a WebGL bootstrap
that compiles two shaders, links a program, uploads a quad, tracks the
pointer, and drives a self-perpetuating per-frame render loop.

The effectful WebGL/DOM calls are modelled as a trace of `GLCall` values;
the browser/driver side (compile and link status, info logs, location
lookups) is an oracle `GLDriver` supplied as input.  Floating point values
(`f32`/`f64` times and normalized coordinates) are modelled as rationals;
`i32` values as `Int` and the one `as u32` cast as reduction mod 2^32.
-/

namespace Metaball

/-! ### WebGL API constants (values fixed by the WebGL specification) -/

def glCOLOR_BUFFER_BIT : ℕ := 0x4000
def glTRIANGLES : ℕ := 4
def glUNSIGNED_SHORT : ℕ := 5123
def glFLOAT : ℕ := 5126
def glARRAY_BUFFER : ℕ := 34962
def glELEMENT_ARRAY_BUFFER : ℕ := 34963
def glSTATIC_DRAW : ℕ := 35044
def glFRAGMENT_SHADER : ℕ := 35632
def glVERTEX_SHADER : ℕ := 35633

/-! ### Shader sources (lib.rs lines 26-46, verbatim) -/

def FRAGMENT_SHADER : String :=
  "\nprecision mediump float;\nuniform float time;\nuniform vec2 mouse;\nuniform vec2 resolution;\n\nvoid main(void)\x7b\n    vec2 m = vec2(mouse.x * 2.0 - 1.0, -mouse.y * 2.0 + 1.0);\n    vec2 p = (gl_FragCoord.xy * 2.0 - resolution) / min(resolution.x, resolution.y);\n    float t = sin(length(m - p) * 30.0 + time * 5.0);\n    gl_FragColor = vec4(vec3(t), 1.0);\n\x7d\n"

def VERTEX_SHADER : String :=
  "\nattribute vec3 position;\n\nvoid main(void)\x7b\n    gl_Position = vec4(position, 1.0);\n\x7d\n"

/-! ### Effect trace -/

/-- One effectful WebGL/DOM call issued by the program.  Shader objects are
identified by their stage constant (only one shader per stage exists in the
program); buffers by a creation index; uniform locations by an opaque `ℕ`
handle chosen by the driver. -/
inductive GLCall where
  | viewport (x y w h : ℤ)
  | addEventListener (target ev : String)
  | removeEventListener (target ev : String)
  | createShader (ty : ℕ)
  | shaderSource (ty : ℕ) (src : String)
  | compileShader (ty : ℕ)
  | getShaderInfoLog (ty : ℕ)
  | createProgram
  | attachShader (ty : ℕ)
  | linkProgram
  | getProgramInfoLog
  | useProgram
  | createBuffer
  | bindBuffer (target : ℕ) (buf : ℕ)
  | bufferDataF32 (target : ℕ) (data : List ℚ) (usage : ℕ)
  | bufferDataU16 (target : ℕ) (data : List ℕ) (usage : ℕ)
  | enableVertexAttribArray (idx : ℕ)
  | vertexAttribPointer (idx size ty : ℕ) (normalized : Bool) (stride off : ℕ)
  | clearColor (r g b a : ℚ)
  | clear (mask : ℕ)
  | uniform1f (loc : ℕ) (v : ℚ)
  | uniform2fv (loc : ℕ) (v : List ℚ)
  | drawElements (mode : ℕ) (count : ℤ) (ty : ℕ) (off : ℤ)
  | flush
  | requestAnimationFrame
deriving DecidableEq, Repr

/-- The browser/driver oracle: responses of the external WebGL context to
the queries the program makes.  `compileStatus`/`shaderInfoLog` are indexed
by shader stage and source; `linkStatus`/`programInfoLog` concern the single
program this run creates; `uniformLoc`/`attribLoc` are the post-link
location lookups (`get_attrib_location` returns an `i32`, `-1` when the
attribute is absent; `get_uniform_location` returns an option). -/
structure GLDriver where
  compileStatus : ℕ → String → Bool
  shaderInfoLog : ℕ → String → String
  linkStatus : Bool
  programInfoLog : String
  uniformLoc : String → Option ℕ
  attribLoc : String → ℤ

/-- The host canvas: CSS client size (`client_width`/`client_height`,
`i32`) and drawing-buffer size (`width`/`height`, `u32`). -/
structure Canvas where
  clientWidth : ℤ
  clientHeight : ℤ
  width : ℕ
  height : ℕ

/-- The Rust `as u32` cast applied to an `i32` value (lib.rs line 78). -/
def asU32 (x : ℤ) : ℕ := (x % 2 ^ 32).toNat

/-! ### get_shader (lib.rs lines 151-162) -/

/-- `get_shader`: create a shader, attach the source, compile, query the
compile status; on failure return the driver-reported info log as the
error. -/
def getShader (d : GLDriver) (ty : ℕ) (src : String) :
    Except String Unit × List GLCall :=
  let trace := [GLCall.createShader ty, GLCall.shaderSource ty src, GLCall.compileShader ty]
  if d.compileStatus ty src then
    (Except.ok (), trace)
  else
    (Except.error (d.shaderInfoLog ty src), trace ++ [GLCall.getShaderInfoLog ty])

/-! ### init_shaders (lib.rs lines 164-183) -/

/-- `init_shaders`: compile the fragment shader, then the vertex shader
(each `?`-propagating its error), create a program, attach vertex then
fragment, link, check link status; on link failure return an error message
embedding the program info log; on success install the program with
`use_program`. -/
def initShaders (d : GLDriver) : Except String Unit × List GLCall :=
  match getShader d glFRAGMENT_SHADER FRAGMENT_SHADER with
  | (Except.error e, tf) => (Except.error e, tf)
  | (Except.ok _, tf) =>
    match getShader d glVERTEX_SHADER VERTEX_SHADER with
    | (Except.error e, tv) => (Except.error e, tf ++ tv)
    | (Except.ok _, tv) =>
      let tlink := tf ++ tv ++
        [GLCall.createProgram, GLCall.attachShader glVERTEX_SHADER,
         GLCall.attachShader glFRAGMENT_SHADER, GLCall.linkProgram]
      if d.linkStatus then
        (Except.ok (), tlink ++ [GLCall.useProgram])
      else
        (Except.error ("シェーダープログラムを初期化できません: " ++ d.programInfoLog),
         tlink ++ [GLCall.getProgramInfoLog])

/-! ### init_buffers (lib.rs lines 185-218) -/

/-- The 4-vertex clip-space quad uploaded as the position buffer
(lib.rs lines 186-191). -/
def positionData : List ℚ := [-1, 1, 0, 1, 1, 0, -1, -1, 0, 1, -1, 0]

/-- The index data for the two triangles (lib.rs lines 203-206). -/
def indexData : List ℕ := [0, 2, 1, 1, 2, 3]

/-- `init_buffers`: create the position buffer (handle 0), bind it to
`ARRAY_BUFFER` and upload `positionData` with `STATIC_DRAW`; create the
index buffer (handle 1), bind it to `ELEMENT_ARRAY_BUFFER` and upload
`indexData` with `STATIC_DRAW`. -/
def initBuffers : List GLCall :=
  [GLCall.createBuffer,
   GLCall.bindBuffer glARRAY_BUFFER 0,
   GLCall.bufferDataF32 glARRAY_BUFFER positionData glSTATIC_DRAW,
   GLCall.createBuffer,
   GLCall.bindBuffer glELEMENT_ARRAY_BUFFER 1,
   GLCall.bufferDataU16 glELEMENT_ARRAY_BUFFER indexData glSTATIC_DRAW]

/-! ### The per-frame closure (lib.rs lines 96-123) -/

/-- The state captured by the closure passed to `start_animation`:
the three uniform-location lookups, the canvas client size read once before
the loop (lib.rs lines 55-56), and the start timestamp (line 94). -/
structure FrameEnv where
  ulTime : Option ℕ
  ulMouse : Option ℕ
  ulResolution : Option ℕ
  canvasW : ℤ
  canvasH : ℤ
  startTime : ℚ
deriving DecidableEq, Repr

/-- The live state a frame invocation reads: the current clock value
(`get_current_time`) and the pointer offsets last written by the mousemove
listener (lib.rs lines 61-65). -/
structure FrameInput where
  now : ℚ
  mouseX : ℤ
  mouseY : ℤ
deriving DecidableEq, Repr

/-- The elapsed time pushed to the `time` uniform:
`(current_time - start_time)` (lib.rs line 103). -/
def elapsed (startTime now : ℚ) : ℚ := now - startTime

/-- The normalized pointer pair pushed to the `mouse` uniform:
`[mouse_x / canvas_w, mouse_y / canvas_h]` (lib.rs line 110). -/
def normalizedMouse (w h : ℤ) (mx my : ℤ) : List ℚ :=
  [(mx : ℚ) / (w : ℚ), (my : ℚ) / (h : ℚ)]

/-- Calls issued by the `time` uniform update (lib.rs lines 99-105):
skipped when the location is absent. -/
def frameTimePart (env : FrameEnv) (inp : FrameInput) : List GLCall :=
  match env.ulTime with
  | some l => [GLCall.uniform1f l (elapsed env.startTime inp.now)]
  | none => []

/-- Calls issued by the `mouse` uniform update (lib.rs lines 107-112):
skipped when the location is absent. -/
def frameMousePart (env : FrameEnv) (inp : FrameInput) : List GLCall :=
  match env.ulMouse with
  | some l => [GLCall.uniform2fv l (normalizedMouse env.canvasW env.canvasH inp.mouseX inp.mouseY)]
  | none => []

/-- Calls issued by the `resolution` uniform update (lib.rs lines 114-119):
skipped when the location is absent; the value is the captured client size,
independent of the frame input. -/
def frameResolutionPart (env : FrameEnv) : List GLCall :=
  match env.ulResolution with
  | some l => [GLCall.uniform2fv l [(env.canvasW : ℚ), (env.canvasH : ℚ)]]
  | none => []

/-- The trace of one invocation of the frame closure (lib.rs lines 96-123):
clear, conditionally the three uniform updates, the indexed draw call over
6 indices, flush. -/
def frameTrace (env : FrameEnv) (inp : FrameInput) : List GLCall :=
  GLCall.clear glCOLOR_BUFFER_BIT ::
    (frameTimePart env inp ++ frameMousePart env inp ++ frameResolutionPart env ++
     [GLCall.drawElements glTRIANGLES 6 glUNSIGNED_SHORT 0, GLCall.flush])

/-! ### start_animation (lib.rs lines 258-269) -/

/-- Calls issued by `start_animation` itself before any frame fires: the
single initial `request_animation_frame(g)` registration (line 268). -/
def startAnimationTrace : List GLCall := [GLCall.requestAnimationFrame]

/-- Calls issued by one invocation of the wrapped callback (lines 263-266):
first the caller-supplied handler's calls, then exactly one re-registration
via `request_animation_frame(f)`. -/
def animationCallbackTrace (handlerTrace : List GLCall) : List GLCall :=
  handlerTrace ++ [GLCall.requestAnimationFrame]

/-- Phase of the render-loop scheduler: `waiting` between frames (control
with the host), `running` after the host invoked the wrapped callback and
the caller-supplied handler has executed, before the re-registration at the
end of the callback body. -/
inductive LoopPhase where
  | waiting
  | running
deriving DecidableEq, Repr

/-- Scheduler state: the phase together with the number of frame callbacks
currently registered (pending) with the host's frame-pacing mechanism. -/
structure LoopState where
  phase : LoopPhase
  pending : ℕ
deriving DecidableEq, Repr

/-- The state right after `start_animation` returns: `waiting` with exactly
one registration, from the single `request_animation_frame(g)` call on
line 268. -/
def startAnimationState : LoopState := ⟨LoopPhase.waiting, 1⟩

/-- One step of the host/loop interaction.  `fire`: the host consumes one
pending registration and invokes the wrapped callback, which runs the
caller-supplied handler (lib.rs line 264).  `rearm`: the callback body then
re-registers itself once (line 265) and returns control to the host.
Re-registration is only possible from `running`, i.e. from inside the
callback after the handler has executed. -/
inductive LoopStep : LoopState → LoopState → Prop where
  | fire (n : ℕ) : LoopStep ⟨LoopPhase.waiting, n + 1⟩ ⟨LoopPhase.running, n⟩
  | rearm (n : ℕ) : LoopStep ⟨LoopPhase.running, n⟩ ⟨LoopPhase.waiting, n + 1⟩

/-- States reachable from the post-`start_animation` state. -/
def LoopReachable (s : LoopState) : Prop :=
  Relation.ReflTransGen LoopStep startAnimationState s

/-! ### start (lib.rs lines 49-126) -/

/-- Calls issued by `get_webgl_context` (lib.rs lines 140-149): sets the
viewport from the canvas drawing-buffer `width`/`height` (line 146). -/
def getWebglContextTrace (c : Canvas) : List GLCall :=
  [GLCall.viewport 0 0 (c.width : ℤ) (c.height : ℤ)]

/-- `start` (lib.rs lines 49-126), up to the point where the animation loop
is armed.  Returns the environment captured by the frame closure on
success, or the propagated shader/link error, together with the setup-call
trace.  `t0` is the value `get_current_time()` returned at line 94. -/
def start (d : GLDriver) (c : Canvas) (t0 : ℚ) :
    Except String FrameEnv × List GLCall :=
  let tctx := getWebglContextTrace c
  let tlisten := tctx ++ [GLCall.addEventListener "canvas" "mousemove"]
  match initShaders d with
  | (Except.error e, ts) => (Except.error e, tlisten ++ ts)
  | (Except.ok _, ts) =>
    let attrib := asU32 (d.attribLoc "position")
    let env : FrameEnv :=
      ⟨d.uniformLoc "time", d.uniformLoc "mouse", d.uniformLoc "resolution",
       c.clientWidth, c.clientHeight, t0⟩
    (Except.ok env,
     tlisten ++ ts ++ initBuffers ++
       [GLCall.bindBuffer glARRAY_BUFFER 0,
        GLCall.enableVertexAttribArray attrib,
        GLCall.vertexAttribPointer attrib 3 glFLOAT false 0 0,
        GLCall.bindBuffer glELEMENT_ARRAY_BUFFER 1,
        GLCall.clearColor 0 0 0 1] ++
       startAnimationTrace)

/-! ### Helpers for stating and witnessing the properties -/

/-- The payloads of all `uniform2fv` calls at location `l` in a trace. -/
def uniform2fvValuesAt (l : ℕ) (tr : List GLCall) : List (List ℚ) :=
  tr.filterMap fun call =>
    match call with
    | GLCall.uniform2fv l2 v => if l2 = l then some v else none
    | _ => none

/-- A driver on which every shader compilation fails with a fixed
diagnostic. -/
def badDriver : GLDriver :=
  ⟨fun _ _ => false, fun _ _ => "ERROR: 0:1: syntax error", true, "",
   fun _ => none, fun _ => -1⟩

/-- A driver on which compilation and linking succeed, all three uniforms
are live, and attribute `position` resolves to index 0. -/
def goodDriver : GLDriver :=
  ⟨fun _ _ => true, fun _ _ => "", true, "",
   fun n => if n = "time" then some 0 else if n = "mouse" then some 1
            else if n = "resolution" then some 2 else none,
   fun n => if n = "position" then 0 else -1⟩

/-- A driver on which compilation and linking succeed but no attribute is
declared: `get_attrib_location` answers `-1` for every name. -/
def noAttribDriver : GLDriver :=
  ⟨fun _ _ => true, fun _ _ => "", true, "",
   fun _ => none, fun _ => -1⟩

/-- A concrete canvas whose CSS client size differs from its
drawing-buffer size. -/
def demoCanvas : Canvas := ⟨640, 480, 800, 600⟩

/-! ## Theorems -/

/-- C8: `init_buffers` uploads exactly the 4-vertex quad
`[-1,1,0, 1,1,0, -1,-1,0, 1,-1,0]` into the vertex buffer bound to
`ARRAY_BUFFER` and exactly the indices `[0,2,1, 1,2,3]` into the index
buffer bound to `ELEMENT_ARRAY_BUFFER`, both with the `STATIC_DRAW`
write-once usage hint, and every frame issues the indexed draw call over
exactly 6 indices. -/
theorem init_buffers_exact :
    initBuffers =
      [GLCall.createBuffer,
       GLCall.bindBuffer glARRAY_BUFFER 0,
       GLCall.bufferDataF32 glARRAY_BUFFER
         [-1, 1, 0, 1, 1, 0, -1, -1, 0, 1, -1, 0] glSTATIC_DRAW,
       GLCall.createBuffer,
       GLCall.bindBuffer glELEMENT_ARRAY_BUFFER 1,
       GLCall.bufferDataU16 glELEMENT_ARRAY_BUFFER [0, 2, 1, 1, 2, 3] glSTATIC_DRAW]
    ∧ ∀ env inp, GLCall.drawElements glTRIANGLES 6 glUNSIGNED_SHORT 0 ∈ frameTrace env inp := by
  refine ⟨rfl, fun env inp => ?_⟩
  simp [frameTrace]

/-- C6: for raw pointer offsets `(x, y)` with `0 ≤ x ≤ W` and `0 ≤ y ≤ H`,
both components of the normalized pair `[x / W, y / H]` pushed to the
`mouse` uniform lie in `[0, 1]`. -/
theorem mouse_normalization_bounds (w h mx my : ℤ)
    (hx0 : 0 ≤ mx) (hxw : mx ≤ w) (hy0 : 0 ≤ my) (hyh : my ≤ h) :
    ∀ q ∈ normalizedMouse w h mx my, 0 ≤ q ∧ q ≤ 1 := by
  have key : ∀ a b : ℤ, 0 ≤ a → a ≤ b → 0 ≤ (a : ℚ) / (b : ℚ) ∧ (a : ℚ) / (b : ℚ) ≤ 1 := by
    intro a b ha hab
    rcases eq_or_lt_of_le (ha.trans hab) with hb | hb
    · have ha0 : a = 0 := le_antisymm (hb ▸ hab) ha
      simp [ha0]
    · have hbq : (0 : ℚ) < (b : ℚ) := by exact_mod_cast hb
      constructor
      · exact div_nonneg (by exact_mod_cast ha) hbq.le
      · rw [div_le_one hbq]
        exact_mod_cast hab
  intro q hq
  simp only [normalizedMouse, List.mem_cons, List.mem_singleton, List.not_mem_nil,
    or_false] at hq
  rcases hq with hq | hq
  · exact hq ▸ key mx w hx0 hxw
  · exact hq ▸ key my h hy0 hyh

/-- Witness for C6 at `W = 640`, `H = 480`, `(x, y) = (320, 480)`: the
first normalized component lies in `[0, 1]`. -/
theorem mouse_normalization_bounds_witness :
    0 ≤ ((320 : ℤ) : ℚ) / ((640 : ℤ) : ℚ)
    ∧ ((320 : ℤ) : ℚ) / ((640 : ℤ) : ℚ) ≤ 1 :=
  mouse_normalization_bounds 640 480 320 480 (by decide) (by decide)
    (by decide) (by decide) (((320 : ℤ) : ℚ) / ((640 : ℤ) : ℚ))
    (by simp [normalizedMouse])

/-- C7: for a fixed start timestamp, the elapsed value pushed to the `time`
uniform is monotonically non-decreasing across frame invocations whose
clock readings are non-decreasing, and it is exactly the value carried by
the `uniform1f` call in each frame's trace. -/
theorem elapsed_monotone (env : FrameEnv) (l : ℕ) (inp1 inp2 : FrameInput)
    (hl : env.ulTime = some l) (hnow : inp1.now ≤ inp2.now) :
    elapsed env.startTime inp1.now ≤ elapsed env.startTime inp2.now
    ∧ GLCall.uniform1f l (elapsed env.startTime inp1.now) ∈ frameTrace env inp1
    ∧ GLCall.uniform1f l (elapsed env.startTime inp2.now) ∈ frameTrace env inp2 := by
  refine ⟨sub_le_sub_right hnow _, ?_, ?_⟩ <;>
    simp [frameTrace, frameTimePart, hl]

/-- Witness for C7 with time location 0, clock readings 10 ≤ 12. -/
theorem elapsed_monotone_witness :
    elapsed (5 : ℚ) 10 ≤ elapsed (5 : ℚ) 12
    ∧ GLCall.uniform1f 0 (elapsed (5 : ℚ) 10) ∈
        frameTrace ⟨some 0, none, none, 640, 480, 5⟩ ⟨10, 0, 0⟩
    ∧ GLCall.uniform1f 0 (elapsed (5 : ℚ) 12) ∈
        frameTrace ⟨some 0, none, none, 640, 480, 5⟩ ⟨12, 0, 0⟩ :=
  elapsed_monotone ⟨some 0, none, none, 640, 480, 5⟩ 0 ⟨10, 0, 0⟩ ⟨12, 0, 0⟩ rfl
    (by norm_num)

/-- C1: each frame-callback invocation issues, in this order: clear the
framebuffer; the `time` uniform update carrying `now - start`; the `mouse`
uniform update carrying the pointer normalized by the surface size; the
`resolution` uniform update carrying the surface size — each update
present exactly when its location is, and skipped (no such call at all)
when absent; then the indexed draw call and flush. -/
theorem frame_callback_order (env : FrameEnv) (inp : FrameInput) :
    frameTrace env inp =
      [GLCall.clear glCOLOR_BUFFER_BIT]
        ++ (env.ulTime.map fun l =>
              GLCall.uniform1f l (inp.now - env.startTime)).toList
        ++ (env.ulMouse.map fun l =>
              GLCall.uniform2fv l
                [(inp.mouseX : ℚ) / (env.canvasW : ℚ),
                 (inp.mouseY : ℚ) / (env.canvasH : ℚ)]).toList
        ++ (env.ulResolution.map fun l =>
              GLCall.uniform2fv l [(env.canvasW : ℚ), (env.canvasH : ℚ)]).toList
        ++ [GLCall.drawElements glTRIANGLES 6 glUNSIGNED_SHORT 0, GLCall.flush]
    ∧ (env.ulTime = none → ∀ l v, GLCall.uniform1f l v ∉ frameTrace env inp)
    ∧ (env.ulMouse = none → env.ulResolution = none →
        ∀ l v, GLCall.uniform2fv l v ∉ frameTrace env inp) := by
  obtain ⟨t, m, r, w, h, s⟩ := env
  refine ⟨?_, ?_, ?_⟩
  · cases t <;> cases m <;> cases r <;>
      simp [frameTrace, frameTimePart, frameMousePart, frameResolutionPart,
        elapsed, normalizedMouse]
  · rintro rfl l v
    cases m <;> cases r <;>
      simp [frameTrace, frameTimePart, frameMousePart, frameResolutionPart]
  · rintro rfl rfl l v
    cases t <;>
      simp [frameTrace, frameTimePart, frameMousePart, frameResolutionPart]

/-- Witness for C1 at a concrete environment with the time location absent
and the other two present. -/
theorem frame_callback_order_witness :
    frameTrace ⟨none, some 1, some 2, 640, 480, 10⟩ ⟨12, 320, 240⟩ =
      [GLCall.clear glCOLOR_BUFFER_BIT,
       GLCall.uniform2fv 1
         [((320 : ℤ) : ℚ) / ((640 : ℤ) : ℚ), ((240 : ℤ) : ℚ) / ((480 : ℤ) : ℚ)],
       GLCall.uniform2fv 2 [((640 : ℤ) : ℚ), ((480 : ℤ) : ℚ)],
       GLCall.drawElements glTRIANGLES 6 glUNSIGNED_SHORT 0, GLCall.flush]
    ∧ (∀ l v, GLCall.uniform1f l v ∉
        frameTrace ⟨none, some 1, some 2, 640, 480, 10⟩ ⟨12, 320, 240⟩) := by
  have h := frame_callback_order ⟨none, some 1, some 2, 640, 480, 10⟩ ⟨12, 320, 240⟩
  exact ⟨h.1, h.2.1 rfl⟩

/-- C2: `start_animation` registers the wrapped callback exactly once, and
in every state reachable from the post-`start_animation` state at most one
frame callback is pending; re-registration is only possible from inside
the callback, after the handler has executed (the `rearm` step is enabled
only in the `running` phase, which is entered only by `fire`). -/
theorem animation_single_pending :
    startAnimationTrace.count GLCall.requestAnimationFrame = 1
    ∧ ∀ s, LoopReachable s → s.pending ≤ 1 := by
  refine ⟨rfl, fun s h => ?_⟩
  have key : s = (⟨LoopPhase.waiting, 1⟩ : LoopState)
      ∨ s = (⟨LoopPhase.running, 0⟩ : LoopState) := by
    induction h with
    | refl => exact Or.inl rfl
    | tail _ step ih =>
      cases step with
      | fire n =>
        rcases ih with h1 | h1
        · obtain ⟨rfl⟩ : n + 1 = 1 := by
            have := congrArg LoopState.pending h1
            simpa using this
          exact Or.inr rfl
        · exact absurd (congrArg LoopState.phase h1) (by simp)
      | rearm n =>
        rcases ih with h1 | h1
        · exact absurd (congrArg LoopState.phase h1) (by simp)
        · obtain rfl : n = 0 := by
            have := congrArg LoopState.pending h1
            simpa using this
          exact Or.inl rfl
  rcases key with rfl | rfl <;> simp

/-- Witness for C2: the post-`start_animation` state itself is reachable
and has exactly one pending callback. -/
theorem animation_single_pending_witness :
    startAnimationTrace.count GLCall.requestAnimationFrame = 1
    ∧ startAnimationState.pending ≤ 1 :=
  ⟨animation_single_pending.1,
   animation_single_pending.2 startAnimationState Relation.ReflTransGen.refl⟩

/-- C3: when the driver reports compile failure for a shader source,
`get_shader` returns the error carrying exactly the driver-reported info
log (so non-empty whenever the driver's log is), never a usable handle;
and when the failing shader is one of the two this program compiles,
`init_shaders` never reaches the link step. -/
theorem shader_compile_failure (d : GLDriver) (ty : ℕ) (src : String)
    (hfail : d.compileStatus ty src = false) :
    (getShader d ty src).1 = Except.error (d.shaderInfoLog ty src)
    ∧ (∀ u, (getShader d ty src).1 ≠ Except.ok u)
    ∧ (d.shaderInfoLog ty src ≠ "" →
        ∀ e, (getShader d ty src).1 = Except.error e → e ≠ "")
    ∧ ((ty = glFRAGMENT_SHADER ∧ src = FRAGMENT_SHADER)
        ∨ (ty = glVERTEX_SHADER ∧ src = VERTEX_SHADER) →
        GLCall.linkProgram ∉ (initShaders d).2
        ∧ ∃ e, (initShaders d).1 = Except.error e) := by
  refine ⟨by simp [getShader, hfail], by simp [getShader, hfail], ?_, ?_⟩
  · intro hne e he
    simp [getShader, hfail] at he
    exact he ▸ hne
  · rintro (⟨rfl, rfl⟩ | ⟨rfl, rfl⟩)
    · simp [initShaders, getShader, hfail]
    · by_cases hf : d.compileStatus glFRAGMENT_SHADER FRAGMENT_SHADER <;>
        simp [initShaders, getShader, hf, hfail]

/-- Witness for C3 on a driver that fails every compilation with a fixed
non-empty log, at the fragment shader this program compiles. -/
theorem shader_compile_failure_witness :
    (getShader badDriver glFRAGMENT_SHADER FRAGMENT_SHADER).1 =
      Except.error "ERROR: 0:1: syntax error"
    ∧ GLCall.linkProgram ∉ (initShaders badDriver).2
    ∧ ∃ e, (initShaders badDriver).1 = Except.error e := by
  have h := shader_compile_failure badDriver glFRAGMENT_SHADER FRAGMENT_SHADER rfl
  exact ⟨h.1, (h.2.2.2 (Or.inl ⟨rfl, rfl⟩)).1, (h.2.2.2 (Or.inl ⟨rfl, rfl⟩)).2⟩

/-- C4: given both shaders compile, `init_shaders` returns an error exactly
when the driver reports link failure, and that error carries the program
info log (appended to a fixed message) rather than aborting; on link
success the returned program has been installed via `use_program` as part
of the success path. -/
theorem program_link_result (d : GLDriver)
    (hf : d.compileStatus glFRAGMENT_SHADER FRAGMENT_SHADER = true)
    (hv : d.compileStatus glVERTEX_SHADER VERTEX_SHADER = true) :
    ((∃ e, (initShaders d).1 = Except.error e) ↔ d.linkStatus = false)
    ∧ (d.linkStatus = false →
        (initShaders d).1 =
          Except.error ("シェーダープログラムを初期化できません: " ++ d.programInfoLog))
    ∧ (d.linkStatus = true →
        (initShaders d).1 = Except.ok () ∧ GLCall.useProgram ∈ (initShaders d).2) := by
  by_cases hls : d.linkStatus <;>
    simp [initShaders, getShader, hf, hv, hls]

/-- Witness for C4 on a driver where compilation and linking succeed: the
program is returned and `use_program` appears in the trace. -/
theorem program_link_result_witness :
    (initShaders goodDriver).1 = Except.ok ()
    ∧ GLCall.useProgram ∈ (initShaders goodDriver).2 :=
  (program_link_result goodDriver rfl rfl).2.2 rfl

/-- C5 counterexample: on a driver where no attribute named `position`
exists, `get_attrib_location` answers `-1`, yet `start` observes no
"None": the unchecked `as u32` cast turns the absence sentinel into index
4294967295, `start` succeeds, and that index is passed to
`enable_vertex_attrib_array` — absence is not signalled as `None` by the
code's lookup. -/
theorem attrib_absent_not_none :
    noAttribDriver.attribLoc "position" = -1
    ∧ asU32 (noAttribDriver.attribLoc "position") = 4294967295
    ∧ (start noAttribDriver demoCanvas 0).1 =
        Except.ok ⟨none, none, none, 640, 480, 0⟩
    ∧ GLCall.enableVertexAttribArray 4294967295 ∈
        (start noAttribDriver demoCanvas 0).2 := by
  refine ⟨rfl, by decide, rfl, ?_⟩
  simp only [start, initShaders, getShader, noAttribDriver, demoCanvas]
  decide

/-- C5 amended: the code's attribute lookup is `get_attrib_location`
returning a plain `i32` with `-1` signalling absence, which the code casts
to `u32` unconditionally (absence becomes `2^32 - 1`, not `None`); when
the driver reports a non-negative index below `2^31` for the declared
attribute `position` (as it must for the supplied vertex shader), the cast
preserves that valid non-negative index. -/
theorem attrib_lookup_amended (d : GLDriver)
    (hpos : 0 ≤ d.attribLoc "position") (hlt : d.attribLoc "position" < 2 ^ 31) :
    asU32 (d.attribLoc "position") = (d.attribLoc "position").toNat
    ∧ ((d.attribLoc "position").toNat : ℤ) = d.attribLoc "position"
    ∧ asU32 (-1) = 2 ^ 32 - 1 := by
  unfold asU32
  have h31 : (2 : ℤ) ^ 31 = 2147483648 := by norm_num
  have h32 : (2 : ℤ) ^ 32 = 4294967296 := by norm_num
  rw [h31] at hlt
  refine ⟨?_, ?_, by decide⟩
  · rw [h32]; omega
  · omega

/-- Witness for the amended C5 on a driver resolving `position` to 0. -/
theorem attrib_lookup_amended_witness :
    asU32 (goodDriver.attribLoc "position") = (goodDriver.attribLoc "position").toNat
    ∧ ((goodDriver.attribLoc "position").toNat : ℤ) = goodDriver.attribLoc "position"
    ∧ asU32 (-1) = 2 ^ 32 - 1 :=
  attrib_lookup_amended goodDriver (by decide) (by decide)

/-- C9: on success, the frame environment captures the canvas CSS client
size read once before the loop; every frame's `resolution` uniform push
carries exactly that captured size whatever the frame input is, the mouse
normalization divides by that captured size, and the viewport was set from
the separate drawing-buffer `width`/`height`. -/
theorem resolution_captured_at_startup (d : GLDriver) (c : Canvas) (t0 : ℚ)
    (env : FrameEnv) (hok : (start d c t0).1 = Except.ok env) :
    env.canvasW = c.clientWidth ∧ env.canvasH = c.clientHeight
    ∧ (∀ l, env.ulResolution = some l → env.ulMouse ≠ some l →
        ∀ inp, uniform2fvValuesAt l (frameTrace env inp) =
          [[(c.clientWidth : ℚ), (c.clientHeight : ℚ)]])
    ∧ (∀ l, env.ulMouse = some l → ∀ inp,
        frameMousePart env inp =
          [GLCall.uniform2fv l
            (normalizedMouse c.clientWidth c.clientHeight inp.mouseX inp.mouseY)])
    ∧ getWebglContextTrace c = [GLCall.viewport 0 0 (c.width : ℤ) (c.height : ℤ)] := by
  rcases h : initShaders d with ⟨r, ts⟩
  cases r with
  | error e => simp [start, h] at hok
  | ok u =>
    simp only [start, h] at hok
    rw [Except.ok.injEq] at hok
    subst hok
    refine ⟨rfl, rfl, ?_, ?_, rfl⟩
    · intro l hres hneq inp
      have hres' : d.uniformLoc "resolution" = some l := hres
      rcases hm : d.uniformLoc "mouse" with _ | m <;>
        rcases ht : d.uniformLoc "time" with _ | tl
      · simp [uniform2fvValuesAt, frameTrace, frameTimePart, frameMousePart,
          frameResolutionPart, hres', hm, ht]
      · simp [uniform2fvValuesAt, frameTrace, frameTimePart, frameMousePart,
          frameResolutionPart, hres', hm, ht]
      all_goals {
        have hml : m ≠ l := by
          intro hml
          exact hneq (by simpa [hml] using hm)
        simp [uniform2fvValuesAt, frameTrace, frameTimePart, frameMousePart,
          frameResolutionPart, hres', hm, ht, hml]
      }
    · intro l hl inp
      have hl' : d.uniformLoc "mouse" = some l := hl
      simp [frameMousePart, hl']

/-- Witness for C9: with all uniforms live and a canvas whose client size
is 640x480 while its drawing buffer is 800x600, the resolution push of a
concrete frame is `[640, 480]`. -/
theorem resolution_captured_at_startup_witness :
    uniform2fvValuesAt 2
        (frameTrace ⟨some 0, some 1, some 2, 640, 480, 0⟩ ⟨12, 320, 240⟩) =
      [[((640 : ℤ) : ℚ), ((480 : ℤ) : ℚ)]] := by
  have h := resolution_captured_at_startup goodDriver demoCanvas 0
    ⟨some 0, some 1, some 2, 640, 480, 0⟩ rfl
  exact h.2.2.1 2 rfl (by decide) ⟨12, 320, 240⟩

/-- Helper: `init_shaders` never removes an event listener. -/
theorem initShaders_no_remove_listener (d : GLDriver) (t ev : String) :
    GLCall.removeEventListener t ev ∉ (initShaders d).2 := by
  by_cases hf : d.compileStatus glFRAGMENT_SHADER FRAGMENT_SHADER <;>
    by_cases hv : d.compileStatus glVERTEX_SHADER VERTEX_SHADER <;>
      by_cases hl : d.linkStatus <;>
        simp [initShaders, getShader, hf, hv, hl]

/-- C10: `start` is not atomic on error: when it returns a shader/link
error, its trace is exactly the context setup, then the `mousemove`
listener registration, then the shader calls — so the subscription was
made before any `compile_shader` call — and no call ever removes the
listener, so the subscription persists. -/
theorem listener_before_shader_compile (d : GLDriver) (c : Canvas) (t0 : ℚ)
    (e : String) (herr : (start d c t0).1 = Except.error e) :
    (start d c t0).2 =
      getWebglContextTrace c ++ [GLCall.addEventListener "canvas" "mousemove"]
        ++ (initShaders d).2
    ∧ GLCall.addEventListener "canvas" "mousemove" ∈ (start d c t0).2
    ∧ (∀ call ∈ getWebglContextTrace c ++ [GLCall.addEventListener "canvas" "mousemove"],
        ∀ ty, call ≠ GLCall.compileShader ty)
    ∧ (∀ t ev, GLCall.removeEventListener t ev ∉ (start d c t0).2) := by
  rcases h : initShaders d with ⟨r, ts⟩
  cases r with
  | ok u => simp [start, h] at herr
  | error e2 =>
    refine ⟨by simp [start, h], by simp [start, h], ?_, ?_⟩
    · intro call hc ty
      simp [getWebglContextTrace] at hc
      rcases hc with rfl | rfl <;> simp
    · intro t ev
      have hts : GLCall.removeEventListener t ev ∉ ts := by
        have := initShaders_no_remove_listener d t ev
        rw [h] at this
        exact this
      simp [start, h, getWebglContextTrace, hts]

/-- Witness for C10 on a driver that fails compilation: `start` errors,
yet the listener registration is in the trace and no removal ever is. -/
theorem listener_before_shader_compile_witness :
    GLCall.addEventListener "canvas" "mousemove" ∈ (start badDriver demoCanvas 0).2
    ∧ GLCall.removeEventListener "canvas" "mousemove" ∉
        (start badDriver demoCanvas 0).2 := by
  have h := listener_before_shader_compile badDriver demoCanvas 0
    "ERROR: 0:1: syntax error" rfl
  exact ⟨h.2.1, h.2.2.2 "canvas" "mousemove"⟩

end Metaball
